import Mathlib

/-!
Shallow embedding of the inference-serving Flask service in `src/app.py`
(breast-cancer classification API).  Python/JSON values are modelled by an
inductive `JValue`; IEEE-754 doubles by `PyFloat` (exact rationals for finite
values plus the special values, since no claim depends on rounding); the
pydantic-v2 validation of `PredictInput`, the endpoint handlers (`root`,
`health`, `predict`, `metrics`) and the before/after middleware are translated
function by function.  Fallible Python operations return `Except String`,
the error string standing for `str(e)` of the raised exception.
-/

/-- Python float values: finite doubles are kept as exact rationals
(no claim depends on rounding), plus the IEEE special values. -/
inductive PyFloat where
  | finite (q : ℚ)
  | nan
  | inf
  | neginf
deriving DecidableEq, BEq, Repr

/-- Python/JSON values as produced by `json.loads` (Flask `request.get_json`):
note that Python's json module parses the literals NaN, Infinity and
negative Infinity by default, so `float` covers the special values too. -/
inductive JValue where
  | null
  | bool (b : Bool)
  | int (n : Int)
  | float (f : PyFloat)
  | str (s : String)
  | arr (xs : List JValue)
  | obj (fields : List (String × JValue))
deriving Repr

/-- Lookup in a dict built from a JSON object: for duplicate keys the last
occurrence wins, as in CPython's json decoder. -/
def objGet (fields : List (String × JValue)) (k : String) : Option JValue :=
  (fields.reverse.find? (fun p => p.1 == k)).map (·.2)

/-- Field lookup on a JValue that is expected to be an object; `none` on
non-objects or a missing key. -/
def jGet (v : JValue) (k : String) : Option JValue :=
  match v with
  | .obj fields => objGet fields k
  | _ => none

/-- Python truthiness (`bool(x)`): None/0/0.0/empty containers are falsy;
NaN and the infinities are truthy. -/
def truthy : JValue → Bool
  | .null => false
  | .bool b => b
  | .int n => n != 0
  | .float (.finite q) => q != 0
  | .float _ => true
  | .str s => s.length != 0
  | .arr xs => xs.length != 0
  | .obj fs => fs.length != 0

/-- Python's type name, as it appears in TypeError messages. -/
def pyTypeName : JValue → String
  | .null => "NoneType"
  | .bool _ => "bool"
  | .int _ => "int"
  | .float _ => "float"
  | .str _ => "str"
  | .arr _ => "list"
  | .obj _ => "dict"

/-- Python list indexing `xs[i]` with negative-index wraparound. -/
def pyListIndex (xs : List JValue) (i : Int) : Except String JValue :=
  let n : Int := Int.ofNat xs.length
  let j : Int := if i < 0 then i + n else i
  if 0 ≤ j ∧ j < n then
    match xs.get? j.toNat with
    | some v => .ok v
    | none => .error "IndexError: list index out of range"
  else .error "IndexError: list index out of range"

/-- Python string indexing `s[i]`, yielding a one-character string. -/
def pyStrIndex (s : String) (i : Int) : Except String JValue :=
  let cs := s.toList
  let n : Int := Int.ofNat cs.length
  let j : Int := if i < 0 then i + n else i
  if 0 ≤ j ∧ j < n then
    match cs.get? j.toNat with
    | some c => .ok (.str (String.singleton c))
    | none => .error "IndexError: string index out of range"
  else .error "IndexError: string index out of range"

/-- Python subscription `v[i]` with an integer index, as used for
`class_names[pred_idx]`: lists and strings index positionally; a dict keyed
by strings has no integer keys (KeyError); other values are not
subscriptable (TypeError). -/
def pySubscript (v : JValue) (i : Int) : Except String JValue :=
  match v with
  | .arr xs => pyListIndex xs i
  | .str s => pyStrIndex s i
  | .obj _ => .error ("KeyError: " ++ toString i)
  | w => .error ("TypeError: '" ++ pyTypeName w ++ "' object is not subscriptable")

/-- The `dict.get(key, default)` method; on a non-dict receiver the attribute
access raises AttributeError, modelled as the error case. -/
def pyDictGet (v : JValue) (k : String) (dflt : JValue) : Except String JValue :=
  match v with
  | .obj fields => .ok ((objGet fields k).getD dflt)
  | w => .error ("AttributeError: '" ++ pyTypeName w ++ "' object has no attribute 'get'")

/-- Numeric value of a decimal digit. -/
def digitVal (c : Char) : Nat := c.toNat - 48

/-- Continue parsing a run of decimal digits (no underscores). -/
def parseDigitsRest (acc : Nat) : List Char → Option Nat
  | [] => some acc
  | c :: rest =>
    if c.isDigit then parseDigitsRest (acc * 10 + digitVal c) rest else none

/-- A nonempty all-digit character list to a Nat; `none` otherwise. -/
def parseDigits : List Char → Option Nat
  | [] => none
  | c :: rest => if c.isDigit then parseDigitsRest (digitVal c) rest else none

/-- Continue a CPython integer-literal digit run: single underscores are
allowed between digits (PEP 515), never leading, trailing or doubled. -/
def parseDigitsURest (acc : Nat) : List Char → Option Nat
  | [] => some acc
  | '_' :: c :: rest =>
    if c.isDigit then parseDigitsURest (acc * 10 + digitVal c) rest else none
  | c :: rest =>
    if c.isDigit then parseDigitsURest (acc * 10 + digitVal c) rest else none

/-- CPython digit run with optional grouping underscores; must start with a
digit and be nonempty. -/
def parseDigitsU : List Char → Option Nat
  | [] => none
  | c :: rest => if c.isDigit then parseDigitsURest (digitVal c) rest else none

/-- Whitespace test for Python's `str.strip` (the ASCII whitespace
characters suffice for the inputs modelled here). -/
def isSpaceChar (c : Char) : Bool :=
  c == ' ' || c == '\t' || c == '\n' || c == '\r' || c == '\x0b' || c == '\x0c'

/-- Strip leading and trailing whitespace from a character list. -/
def trimChars (cs : List Char) : List Char :=
  ((cs.dropWhile isSpaceChar).reverse.dropWhile isSpaceChar).reverse

/-- ASCII lowercase of a character (the case-insensitive tokens here are
ASCII). -/
def lowerChar (c : Char) : Char :=
  if 65 ≤ c.toNat ∧ c.toNat ≤ 90 then Char.ofNat (c.toNat + 32) else c

/-- CPython `int(s)` on a string: surrounding whitespace stripped, optional
sign, base-10 digits with optional grouping underscores; anything else
(including a decimal point) raises ValueError, modelled as `none`. -/
def pyIntOfStr (s : String) : Option Int :=
  match trimChars s.toList with
  | '+' :: rest => (parseDigitsU rest).map Int.ofNat
  | '-' :: rest => (parseDigitsU rest).map (fun n => -(Int.ofNat n : Int))
  | cs => (parseDigitsU cs).map Int.ofNat

/-- Truncation toward zero, the behaviour of CPython `int(float)`. -/
def pyTrunc (q : ℚ) : Int := if 0 ≤ q then ⌊q⌋ else ⌈q⌉

/-- CPython `int(x)` conversion: identity on ints, False/True to 0/1, finite
floats truncate toward zero, NaN/inf raise (OverflowError/ValueError),
strings parse as integer literals, everything else raises TypeError.
`none` models the raising cases. -/
def pyInt : JValue → Option Int
  | .int n => some n
  | .bool b => some (if b then 1 else 0)
  | .float (.finite q) => some (pyTrunc q)
  | .float _ => none
  | .str s => pyIntOfStr s
  | _ => none

/-- Digit list to Nat, most significant first. -/
def digitsToNat (ds : List Char) : Nat :=
  ds.foldl (fun a c => a * 10 + digitVal c) 0

/-- Powers of ten in the rationals. -/
def pow10 (n : Nat) : ℚ := (10 : ℚ) ^ n

/-- Ten to an integer power in the rationals. -/
def qpow10 (e : Int) : ℚ :=
  if 0 ≤ e then pow10 e.toNat else 1 / pow10 (-e).toNat

/-- Parse the mantissa of a decimal float literal — digits with an optional
point, at least one digit overall — returning its value and the unconsumed
suffix. -/
def parseMantissa (cs : List Char) : Option (ℚ × List Char) :=
  let ip := cs.takeWhile Char.isDigit
  let rest := cs.dropWhile Char.isDigit
  match rest with
  | '.' :: rest2 =>
    let fp := rest2.takeWhile Char.isDigit
    let rest3 := rest2.dropWhile Char.isDigit
    if ip.isEmpty && fp.isEmpty then none
    else some ((digitsToNat ip : ℚ) + (digitsToNat fp : ℚ) / pow10 fp.length, rest3)
  | _ =>
    if ip.isEmpty then none else some ((digitsToNat ip : ℚ), rest)

/-- Parse an exponent suffix (after the letter e): optional sign then digits,
consuming the whole remainder. -/
def parseExp (cs : List Char) : Option Int :=
  match cs with
  | '+' :: rest => (parseDigits rest).map Int.ofNat
  | '-' :: rest => (parseDigits rest).map (fun n => -(Int.ofNat n : Int))
  | _ => (parseDigits cs).map Int.ofNat

/-- Parse an unsigned float literal (already lowercased): mantissa with an
optional e-exponent. -/
def parseFinitePos (cs : List Char) : Option ℚ :=
  match parseMantissa cs with
  | none => none
  | some (m, rest) =>
    match rest with
    | [] => some m
    | 'e' :: rest2 => (parseExp rest2).map (fun e => m * qpow10 e)
    | _ => none

/-- String-to-float coercion as performed by pydantic-core for a `float`
field: whitespace-trimmed, case-insensitive, optional sign, the words inf,
infinity and nan, or a decimal literal with optional exponent.  Values are
kept exact in ℚ. -/
def pyFloatOfStr (s : String) : Option PyFloat :=
  let core : List Char → Bool → Option PyFloat := fun cs neg =>
    if cs = "inf".toList ∨ cs = "infinity".toList then
      some (if neg then PyFloat.neginf else PyFloat.inf)
    else if cs = "nan".toList then some PyFloat.nan
    else (parseFinitePos cs).map (fun q => PyFloat.finite (if neg then -q else q))
  match (trimChars s.toList).map lowerChar with
  | '+' :: rest => core rest false
  | '-' :: rest => core rest true
  | cs => core cs false

/-- Pydantic v2 lax coercion of a JSON value to a `float` field
(`Annotated[List[float], ...]` elements): ints and floats are accepted —
including NaN and the infinities, since `allow_inf_nan` defaults to true —
numeric strings are parsed, and booleans, None, lists and dicts are
rejected. `none` models a validation error for that element. -/
def coerceFloat : JValue → Option PyFloat
  | .int n => some (.finite (n : ℚ))
  | .float f => some f
  | .str s => pyFloatOfStr s
  | _ => none

/-- One entry of pydantic's `ValidationError.errors()` list for the
`PredictInput` model: a missing `features` field, a non-list value, a length
violation of the `Field(min_length=30, max_length=30)` constraint, or a
non-coercible element at a given index. -/
inductive ValError where
  | missing (loc : String)
  | listType (loc : String)
  | tooShort (loc : String) (actual : Nat)
  | tooLong (loc : String) (actual : Nat)
  | floatType (loc : String) (idx : Nat)
deriving DecidableEq, Repr

/-- Per-element validation errors of a `List[float]` field, accumulated in
order with their indices (pydantic reports every failing item, not only the
first); `k` is the index of the first element of `xs`. -/
def elemErrorsFrom (loc : String) (k : Nat) : List JValue → List ValError
  | [] => []
  | v :: rest =>
    if (coerceFloat v).isSome then elemErrorsFrom loc (k + 1) rest
    else .floatType loc k :: elemErrorsFrom loc (k + 1) rest

/-- Validation of the `features` value once known to be a list, following
pydantic-core's order of checks for `Field(min_length=30, max_length=30)`:
consuming more than `max_length` items aborts at once with a single
too_long error (reported at the cutoff length 31, any element errors
discarded and no element index enumerated); otherwise every item is
validated with each failing index accumulated, and the min_length check
runs only when all items validated, so a too_short error is never combined
with item errors. -/
def validateFeaturesList (xs : List JValue) : Except (List ValError) (List PyFloat) :=
  if 30 < xs.length then .error [.tooLong "features" 31]
  else
    let errs := elemErrorsFrom "features" 0 xs
    if errs.isEmpty then
      if xs.length < 30 then .error [.tooShort "features" xs.length]
      else .ok (xs.filterMap coerceFloat)
    else .error errs

/-- `PredictInput(**data)` for a dict `data`: pydantic v2 requires a
`features` key (extra keys are ignored by default), its value must be a
list, and the elements and length are validated by the field constraints. -/
def validatePredictInput (fields : List (String × JValue)) : Except (List ValError) (List PyFloat) :=
  match objGet fields "features" with
  | none => .error [.missing "features"]
  | some (.arr xs) => validateFeaturesList xs
  | some _ => .error [.listType "features"]

/-- Rendering of one `errors()` entry into the JSON `details` list returned
by the 400 response (the shape pydantic uses: a type tag and a location). -/
def valErrorJson : ValError → JValue
  | .missing loc => .obj [("type", .str "missing"), ("loc", .arr [.str loc])]
  | .listType loc => .obj [("type", .str "list_type"), ("loc", .arr [.str loc])]
  | .tooShort loc n =>
    .obj [("type", .str "too_short"), ("loc", .arr [.str loc]), ("actual_length", .int n)]
  | .tooLong loc n =>
    .obj [("type", .str "too_long"), ("loc", .arr [.str loc]), ("actual_length", .int n)]
  | .floatType loc i =>
    .obj [("type", .str "float_parsing"), ("loc", .arr [.str loc, .int i])]

/-- The opaque predictor held in the artifact: `predict` yields the class
index (the composite `int(model.predict(X)[0])` of the source, with `X` the
single-row reshape of the feature vector), and `predict_proba` is an
optional capability (the source detects it with `hasattr`).  `Except`
models a raising predictor. -/
structure Predictor where
  predict : List PyFloat → Except String Int
  predictProba : Option (List PyFloat → Except String (List PyFloat))

/-- The process-wide service state established by `create_app`:
`app.model`, `app.meta` and `app.load_error`. -/
structure App where
  model : Option Predictor
  meta : JValue
  load_error : Option String

/-- The `MODEL_PATH` default of the source. -/
def ARTIFACT_PATH : String := "src/model/modelo_breast.pkl"

/-- The startup load in `create_app`: `app.model`/`app.meta` start as
None/{}, then `load_artifact` either succeeds (setting both) or raises
(recording `str(e)` in `app.load_error`).  The filesystem read itself is
out of scope, so the outcome of `load_artifact(ARTIFACT_PATH)` is the
argument. -/
def create_app (loadResult : Except String (Predictor × JValue)) : App :=
  match loadResult with
  | .ok (m, meta) => { model := some m, meta := meta, load_error := none }
  | .error e => { model := none, meta := .obj [], load_error := some e }

/-- The `n_features_expected` helper of the source:
`int(meta.get("n_features", 30))` with every raising path (non-dict meta,
unconvertible value) collapsed to 30 by the try/except. -/
def n_features_expected (meta : JValue) : Int :=
  match pyDictGet meta "n_features" (.int 30) with
  | .error _ => 30
  | .ok v =>
    match pyInt v with
    | some n => n
    | none => 30

/-- An optional string rendered to JSON (`None` becomes null), as jsonify
does for `app.load_error`. -/
def jOptStr : Option String → JValue
  | none => .null
  | some s => .str s

/-- An HTTP response: status code, JSON (or text) body, headers. -/
structure HttpResponse where
  status : Nat
  body : JValue
  headers : List (String × String)
deriving Repr

/-- The `GET /` handler: service info, always 200. -/
def root (app : App) : HttpResponse :=
  { status := 200
  , body := .obj
      [ ("status", .str "success")
      , ("message", .str "API ML Evaluación Modular")
      , ("model_path", .str ARTIFACT_PATH)
      , ("meta", app.meta)
      , ("load_error", jOptStr app.load_error) ]
  , headers := [] }

/-- The `GET /health` handler: `ok = (app.model is not None) and
(app.load_error is None)`, reported with status 200 or 500. -/
def health (app : App) : HttpResponse :=
  let ok := app.model.isSome && app.load_error.isNone
  { status := if ok then 200 else 500
  , body := .obj
      [ ("status", .str (if ok then "ok" else "error"))
      , ("model_loaded", .bool ok)
      , ("n_features", .int (n_features_expected app.meta))
      , ("meta", app.meta)
      , ("error", jOptStr app.load_error) ]
  , headers := [] }

/-- A bare error response as built by the two `except` arms of `/predict`:
jsonify of a status/message object. -/
def errorResponse (status : Nat) (msg : String) : HttpResponse :=
  { status := status
  , body := .obj [("status", .str "error"), ("message", .str msg)]
  , headers := [] }

/-- The probability step of `/predict`:
`model.predict_proba(X)[0].tolist() if hasattr(model, "predict_proba") else None`,
evaluated before `predict` as in the source. -/
def probaOf (m : Predictor) (feats : List PyFloat) : Except String (Option (List PyFloat)) :=
  match m.predictProba with
  | some f => (f feats).map some
  | none => .ok none

/-- The body of the `/predict` try-block after validation succeeded:
probability lookup, class-index prediction, class-name resolution
(`class_names[pred_idx] if class_names else pred_idx` — Python truthiness),
and response assembly.  Any raising step falls to the generic except arm,
a 500 whose message is `str(e)`. -/
def predictLoaded (app : App) (m : Predictor) (rid : String)
    (feats : List PyFloat) : HttpResponse :=
  match probaOf m feats with
  | .error e => errorResponse 500 e
  | .ok proba =>
    match m.predict feats with
    | .error e => errorResponse 500 e
    | .ok pred_idx =>
      match pyDictGet app.meta "class_names" .null with
      | .error e => errorResponse 500 e
      | .ok class_names =>
        let predNameE : Except String JValue :=
          if truthy class_names then pySubscript class_names pred_idx
          else .ok (.int pred_idx)
        match predNameE with
        | .error e => errorResponse 500 e
        | .ok pred_name =>
          { status := 200
          , body := .obj
              [ ("status", .str "success")
              , ("prediction_index", .int pred_idx)
              , ("prediction", pred_name)
              , ("proba", match proba with
                          | none => .null
                          | some ps => .arr (ps.map JValue.float))
              , ("request_id", .str rid) ]
          , headers := [] }

/-- The `POST /predict` handler.  `body` is the outcome of
`request.get_json(force=True, silent=False)`: `.error` when parsing raised
(the raised BadRequest is swallowed by the handler's generic except arm,
yielding 500).  A parsed body that is not a dict makes `PredictInput(**data)`
raise TypeError — also the 500 arm, not validation.  A pydantic
ValidationError yields 400 with the itemized `details`; an unloaded model
short-circuits with 500 before anything else. -/
def predict (app : App) (rid : String) (body : Except String JValue) : HttpResponse :=
  match app.model with
  | none =>
    { status := 500
    , body := .obj
        [ ("status", .str "error")
        , ("message", .str "Modelo no cargado")
        , ("error", jOptStr app.load_error) ]
    , headers := [] }
  | some m =>
    match body with
    | .error e => errorResponse 500 e
    | .ok data =>
      match data with
      | .obj fields =>
        match validatePredictInput fields with
        | .error errs =>
          { status := 400
          , body := .obj
              [ ("status", .str "error")
              , ("message", .str "Payload inválido")
              , ("details", .arr (errs.map valErrorJson)) ]
          , headers := [] }
        | .ok feats => predictLoaded app m rid feats
      | other =>
        errorResponse 500
          ("PredictInput() argument after ** must be a mapping, not " ++ pyTypeName other)

/-- The Prometheus metric state: the increments of `REQ_COUNT` (one
`(endpoint, method, status)` label triple per increment) and the
observations of `REQ_LATENCY` (one `(endpoint, method)` label pair each),
as event logs.  The duration values themselves are wall-clock and out of
scope. -/
structure Metrics where
  counts : List (String × String × String)
  latencies : List (String × String)
deriving DecidableEq, Repr

/-- A stand-in for `generate_latest()`: some text derived from the metric
state (the concrete exposition format is the collaborator's). -/
def renderMetrics (ms : Metrics) : String :=
  "counts=" ++ toString ms.counts.length ++ ",latencies=" ++ toString ms.latencies.length

/-- An inbound HTTP request: the matched endpoint name, the method, the
headers, and the parsed JSON body (an `Except`, as for `predict`). -/
structure HttpRequest where
  endpoint : String
  method : String
  headers : List (String × String)
  body : Except String JValue

/-- Case-normalized form of a header name. -/
def lowerKey (s : String) : List Char := s.toList.map lowerChar

/-- Header lookup, case-insensitive as in werkzeug; the first occurrence
wins.  A present-but-empty header returns the empty string, not the
default. -/
def headerGet (hs : List (String × String)) (k : String) : Option String :=
  (hs.find? (fun p => lowerKey p.1 == lowerKey k)).map (·.2)

/-- Set a response header (`resp.headers[k] = v`): replace an existing entry
or append. -/
def setRespHeader (hs : List (String × String)) (k v : String) : List (String × String) :=
  if hs.any (fun p => p.1 == k) then hs.map (fun p => if p.1 == k then (k, v) else p)
  else hs ++ [(k, v)]

/-- The `before` middleware's request-id assignment:
`request.headers.get("X-Request-Id", str(uuid.uuid4()))` — the freshly drawn
uuid (`fresh`) is used only when the header is absent; a present header is
adopted verbatim, even when empty. -/
def requestId (req : HttpRequest) (fresh : String) : String :=
  match headerGet req.headers "X-Request-Id" with
  | some v => v
  | none => fresh

/-- The endpoint label used by the `after` middleware:
`request.endpoint or "unknown"` — an unmatched route has no endpoint. -/
def knownEndpoint (e : String) : Bool :=
  e == "predict" || e == "health" || e == "root" || e == "metrics"

/-- Metric label for the endpoint. -/
def endpointLabel (req : HttpRequest) : String :=
  if knownEndpoint req.endpoint then req.endpoint else "unknown"

/-- The URL map: each endpoint's view function, plus Flask's 404 for an
unmatched route (which still passes through the after middleware). -/
def dispatch (app : App) (ms : Metrics) (req : HttpRequest) (rid : String) : HttpResponse :=
  if req.endpoint == "predict" then predict app rid req.body
  else if req.endpoint == "health" then health app
  else if req.endpoint == "root" then root app
  else if req.endpoint == "metrics" then
    { status := 200, body := .str (renderMetrics ms), headers := [] }
  else
    { status := 404
    , body := .obj [("status", .str "error"), ("message", .str "Not Found")]
    , headers := [] }

/-- One full request through the service: the `before` hook fixes the
request id, the matched handler runs, and the `after` hook increments
`REQ_COUNT` with the response's status, observes `REQ_LATENCY`, and attaches
the `X-Request-Id` header.  `fresh` is the uuid that `uuid.uuid4()` would
draw for this request. -/
def runRequest (app : App) (ms : Metrics) (req : HttpRequest) (fresh : String) :
    HttpResponse × Metrics :=
  let rid := requestId req fresh
  let resp := dispatch app ms req rid
  let resp2 := { resp with headers := setRespHeader resp.headers "X-Request-Id" rid }
  let ms2 : Metrics :=
    { counts := ms.counts ++ [(endpointLabel req, req.method, toString resp.status)]
    , latencies := ms.latencies ++ [(endpointLabel req, req.method)] }
  (resp2, ms2)

/-! Concrete fixtures used by witnesses and counterexamples. -/

/-- A deterministic predictor that always answers class 0 and offers no
probability capability. -/
def constPredictor : Predictor := ⟨fun _ => .ok 0, none⟩

/-- A deterministic predictor that always answers class 1. -/
def onePredictor : Predictor := ⟨fun _ => .ok 1, none⟩

/-- A deterministic predictor that answers 1 exactly when NaN occurs among
its inputs — its output witnesses which feature vector it was given. -/
def nanDetector : Predictor :=
  ⟨fun feats => .ok (if feats.contains PyFloat.nan then 1 else 0), none⟩

/-- A predictor whose `predict` raises an exception with message "boom". -/
def boomPredictor : Predictor := ⟨fun _ => .error "boom", none⟩

/-- A loaded app with empty metadata. -/
def appOk : App := ⟨some constPredictor, .obj [], none⟩

/-- Metadata declaring ten features. -/
def meta10 : JValue := .obj [("n_features", .int 10)]

/-- A loaded app whose metadata declares ten features. -/
def app10 : App := ⟨some constPredictor, meta10, none⟩

/-- A loaded app with the NaN-detecting predictor. -/
def appNan : App := ⟨some nanDetector, .obj [], none⟩

/-- A loaded app with the raising predictor. -/
def appBoom : App := ⟨some boomPredictor, .obj [], none⟩

/-- Metadata whose `class_names` entry is present but empty. -/
def metaEmptyCN : JValue := .obj [("class_names", .arr [])]

/-- A loaded app with present-but-empty `class_names`. -/
def appEmptyCN : App := ⟨some constPredictor, metaEmptyCN, none⟩

/-- A request body with thirty numeric features. -/
def body30 : Except String JValue :=
  .ok (.obj [("features", .arr (List.replicate 30 (.int 1)))])

/-- A request body with ten numeric features. -/
def body10 : Except String JValue :=
  .ok (.obj [("features", .arr (List.replicate 10 (.int 1)))])

/-- A thirty-element body whose first feature is NaN. -/
def bodyNan : Except String JValue :=
  .ok (.obj [("features", .arr (JValue.float .nan :: List.replicate 29 (.int 1)))])

/-- A predict request carrying no X-Request-Id header. -/
def reqPredNoHdr : HttpRequest := ⟨"predict", "POST", [], body30⟩

/-- A health request carrying the header "abc". -/
def reqHdrAbc : HttpRequest := ⟨"health", "GET", [("X-Request-Id", "abc")], .ok .null⟩

/-- A health request carrying a present-but-empty X-Request-Id header. -/
def reqHdrEmpty : HttpRequest := ⟨"health", "GET", [("X-Request-Id", "")], .ok .null⟩

/-- The empty metric state. -/
def ms0 : Metrics := ⟨[], []⟩

/-! Helper lemmas about the validation layer and the middleware. -/

theorem elemErrorsFrom_eq_nil (loc : String) (k : Nat) (xs : List JValue) :
    elemErrorsFrom loc k xs = [] ↔ ∀ v ∈ xs, (coerceFloat v).isSome = true := by
  induction xs generalizing k with
  | nil => simp [elemErrorsFrom]
  | cons v rest ih =>
    by_cases h : (coerceFloat v).isSome = true
    · rw [elemErrorsFrom, if_pos h]
      rw [ih (k + 1)]
      simp [h]
    · rw [elemErrorsFrom, if_neg h]
      simp only [reduceCtorEq, false_iff]
      intro hall
      exact h (hall v (List.mem_cons_self v rest))

theorem floatType_mem_elemErrorsFrom (loc : String) (k i : Nat) (xs : List JValue) (v : JValue)
    (hg : xs.get? i = some v) (hc : coerceFloat v = none) :
    ValError.floatType loc (k + i) ∈ elemErrorsFrom loc k xs := by
  induction xs generalizing k i with
  | nil => simp at hg
  | cons w rest ih =>
    cases i with
    | zero =>
      simp only [List.get?] at hg
      injection hg with hg
      subst hg
      rw [elemErrorsFrom, if_neg (by simp [hc])]
      simp
    | succ j =>
      simp only [List.get?] at hg
      have hmem := ih (k + 1) j hg
      have heq : k + (j + 1) = (k + 1) + j := by omega
      rw [heq, elemErrorsFrom]
      by_cases hw : (coerceFloat w).isSome = true
      · rw [if_pos hw]; exact hmem
      · rw [if_neg hw]; exact List.mem_cons_of_mem _ hmem

theorem validateFeaturesList_eq_ok (xs : List JValue) (hlen : xs.length = 30)
    (hall : ∀ v ∈ xs, (coerceFloat v).isSome = true) :
    validateFeaturesList xs = .ok (xs.filterMap coerceFloat) := by
  unfold validateFeaturesList
  rw [if_neg (by omega)]
  dsimp only
  rw [if_pos (by
    rw [List.isEmpty_iff]
    exact (elemErrorsFrom_eq_nil "features" 0 xs).mpr hall)]
  rw [if_neg (by omega)]

theorem validateFeaturesList_isOk_iff (xs : List JValue) :
    (validateFeaturesList xs).isOk = true ↔
      xs.length = 30 ∧ ∀ v ∈ xs, (coerceFloat v).isSome = true := by
  constructor
  · intro h
    unfold validateFeaturesList at h
    by_cases h1 : 30 < xs.length
    · rw [if_pos h1] at h
      simp [Except.isOk, Except.toBool] at h
    · rw [if_neg h1] at h
      dsimp only at h
      by_cases h2 : (elemErrorsFrom "features" 0 xs).isEmpty = true
      · rw [if_pos h2] at h
        by_cases h3 : xs.length < 30
        · rw [if_pos h3] at h
          simp [Except.isOk, Except.toBool] at h
        · rw [List.isEmpty_iff] at h2
          exact ⟨by omega, (elemErrorsFrom_eq_nil "features" 0 xs).mp h2⟩
      · rw [if_neg h2] at h
        simp [Except.isOk, Except.toBool] at h
  · rintro ⟨hlen, hall⟩
    rw [validateFeaturesList_eq_ok xs hlen hall]
    rfl

theorem validateFeaturesList_error_of_not (xs : List JValue)
    (h : ¬ (xs.length = 30 ∧ ∀ v ∈ xs, (coerceFloat v).isSome = true)) :
    ∃ errs, validateFeaturesList xs = .error errs := by
  cases hv : validateFeaturesList xs with
  | error errs => exact ⟨errs, rfl⟩
  | ok feats =>
    refine absurd ((validateFeaturesList_isOk_iff xs).mp ?_) h
    rw [hv]
    rfl

theorem validateFeaturesList_eq_too_long (xs : List JValue) (h : 30 < xs.length) :
    validateFeaturesList xs = .error [.tooLong "features" 31] := by
  unfold validateFeaturesList
  rw [if_pos h]

theorem validateFeaturesList_eq_elem_errors (xs : List JValue) (hle : xs.length ≤ 30)
    (hne : elemErrorsFrom "features" 0 xs ≠ []) :
    validateFeaturesList xs = .error (elemErrorsFrom "features" 0 xs) := by
  unfold validateFeaturesList
  rw [if_neg (by omega)]
  dsimp only
  rw [if_neg (by rw [List.isEmpty_iff]; exact hne)]

theorem predict_of_validation_error (m : Predictor) (meta : JValue) (le : Option String)
    (rid : String) (fields : List (String × JValue)) (errs : List ValError)
    (hv : validatePredictInput fields = .error errs) :
    predict ⟨some m, meta, le⟩ rid (.ok (.obj fields))
      = { status := 400
        , body := .obj
            [ ("status", .str "error")
            , ("message", .str "Payload inválido")
            , ("details", .arr (errs.map valErrorJson)) ]
        , headers := [] } := by
  simp only [predict, hv]

theorem predict_of_validation_ok (m : Predictor) (meta : JValue) (le : Option String)
    (rid : String) (fields : List (String × JValue)) (feats : List PyFloat)
    (hv : validatePredictInput fields = .ok feats) :
    predict ⟨some m, meta, le⟩ rid (.ok (.obj fields))
      = predictLoaded ⟨some m, meta, le⟩ m rid feats := by
  simp only [predict, hv]

theorem predictLoaded_headers (app : App) (m : Predictor) (rid : String) (feats : List PyFloat) :
    (predictLoaded app m rid feats).headers = [] := by
  unfold predictLoaded errorResponse
  dsimp only
  repeat' split
  all_goals rfl

theorem predict_headers (app : App) (rid : String) (body : Except String JValue) :
    (predict app rid body).headers = [] := by
  unfold predict errorResponse
  repeat' split
  all_goals first | rfl | apply predictLoaded_headers

theorem dispatch_headers (app : App) (ms : Metrics) (req : HttpRequest) (rid : String) :
    (dispatch app ms req rid).headers = [] := by
  unfold dispatch root health
  repeat' split
  all_goals first | rfl | apply predict_headers

theorem runRequest_xrid (app : App) (ms : Metrics) (req : HttpRequest) (fresh : String) :
    headerGet (runRequest app ms req fresh).1.headers "X-Request-Id"
      = some (requestId req fresh) := by
  show headerGet (setRespHeader (dispatch app ms req (requestId req fresh)).headers
        "X-Request-Id" (requestId req fresh)) "X-Request-Id" = _
  rw [dispatch_headers]
  rfl

/-! Claim theorems. -/

/-- C1, counterexample: with loaded metadata declaring `n_features = 10`, a
thirty-element vector is accepted (HTTP 200) although its length differs
from the metadata's feature count, and a ten-element vector matching the
metadata's count is rejected with HTTP 400 — validation does not consult
the metadata. -/
theorem C1_counterexample :
    (predict app10 "r" body30).status = 200
    ∧ (predict app10 "r" body10).status = 400
    ∧ n_features_expected meta10 = 10 := ⟨rfl, rfl, rfl⟩

/-- C1 (amended): validation accepts a `features` list exactly when its
length is 30 and every element coerces to float, regardless of the loaded
metadata; any other length is rejected with HTTP 400.  The metadata feature
count only feeds the `/health` report. -/
theorem C1_thm (m : Predictor) (meta : JValue) (le : Option String) (rid : String)
    (xs : List JValue) :
    (xs.length ≠ 30 →
      (predict ⟨some m, meta, le⟩ rid (.ok (.obj [("features", .arr xs)]))).status = 400)
    ∧ ((validateFeaturesList xs).isOk = true ↔
        xs.length = 30 ∧ ∀ v ∈ xs, (coerceFloat v).isSome = true) := by
  constructor
  · intro hlen
    obtain ⟨errs, hv⟩ := validateFeaturesList_error_of_not xs (fun hc => hlen hc.1)
    have hv2 : validatePredictInput [("features", .arr xs)] = .error errs := by
      show validateFeaturesList xs = _
      exact hv
    rw [predict_of_validation_error m meta le rid _ _ hv2]
  · exact validateFeaturesList_isOk_iff xs

/-- C1, witness: a ten-element vector is a 400 under ten-feature metadata. -/
theorem C1_witness :
    (predict app10 "r" body10).status = 400 :=
  (C1_thm constPredictor meta10 none "r" (List.replicate 10 (.int 1))).1 (by decide)

/-- C2, counterexample: a body that parses to a JSON array (not an object)
yields HTTP 500 via the TypeError raised by `PredictInput(**data)` — not the
claimed HTTP 400. -/
theorem C2_counterexample :
    (predict appOk "r" (.ok (.arr []))).status = 500
    ∧ jGet (predict appOk "r" (.ok (.arr []))).body "message"
        = some (.str "PredictInput() argument after ** must be a mapping, not list") :=
  ⟨rfl, rfl⟩

/-- C2 (amended): for object-shaped bodies every validation failure yields
HTTP 400 whose `details` renders pydantic's error list — a missing
`features` field is itemized, and within a list of at most 30 elements
every non-coercible element index occurs in the errors (accumulated, not
short-circuited at the first); a list longer than 30 however aborts with a
single too_long error that enumerates no element index, and a non-object
body yields HTTP 500, not 400. -/
theorem C2_thm (m : Predictor) (meta : JValue) (le : Option String) (rid : String)
    (fields : List (String × JValue)) :
    (∀ errs, validatePredictInput fields = .error errs →
      (predict ⟨some m, meta, le⟩ rid (.ok (.obj fields))).status = 400
      ∧ jGet (predict ⟨some m, meta, le⟩ rid (.ok (.obj fields))).body "details"
          = some (.arr (errs.map valErrorJson)))
    ∧ (objGet fields "features" = none →
        validatePredictInput fields = .error [.missing "features"])
    ∧ (∀ xs i v, objGet fields "features" = some (.arr xs) → xs.length ≤ 30 →
        xs.get? i = some v → coerceFloat v = none →
        ∃ errs, validatePredictInput fields = .error errs
          ∧ ValError.floatType "features" i ∈ errs)
    ∧ (∀ xs, objGet fields "features" = some (.arr xs) → 30 < xs.length →
        validatePredictInput fields = .error [.tooLong "features" 31])
    ∧ (∀ v : JValue, (∀ fs, v ≠ .obj fs) →
        (predict ⟨some m, meta, le⟩ rid (.ok v)).status = 500) := by
  refine ⟨?_, ?_, ?_, ?_, ?_⟩
  · intro errs hv
    rw [predict_of_validation_error m meta le rid fields errs hv]
    exact ⟨rfl, rfl⟩
  · intro h
    unfold validatePredictInput
    rw [h]
  · intro xs i v hf hle hg hc
    have hm := floatType_mem_elemErrorsFrom "features" 0 i xs v hg hc
    rw [Nat.zero_add] at hm
    have hne : elemErrorsFrom "features" 0 xs ≠ [] := by
      intro h0
      rw [h0] at hm
      exact absurd hm (List.not_mem_nil _)
    refine ⟨elemErrorsFrom "features" 0 xs, ?_, hm⟩
    unfold validatePredictInput
    rw [hf]
    exact validateFeaturesList_eq_elem_errors xs hle hne
  · intro xs hf hlong
    unfold validatePredictInput
    rw [hf]
    exact validateFeaturesList_eq_too_long xs hlong
  · intro v hv
    cases v with
    | obj fs => exact absurd rfl (hv fs)
    | null => rfl
    | bool b => rfl
    | int n => rfl
    | float f => rfl
    | str s => rfl
    | arr xs => rfl

/-- C2, witness: a non-list `features` yields 400, a null element's index is
itemized in the accumulated error list, and a 31-element list aborts with
the single too_long error. -/
theorem C2_witness :
    (predict appOk "r" (.ok (.obj [("features", .str "x")]))).status = 400
    ∧ (∃ errs, validatePredictInput [("features", .arr [.null])] = .error errs
        ∧ ValError.floatType "features" 0 ∈ errs)
    ∧ validatePredictInput [("features", .arr (List.replicate 31 (.int 1)))]
        = .error [.tooLong "features" 31] :=
  ⟨((C2_thm constPredictor (.obj []) none "r" [("features", .str "x")]).1
      [.listType "features"] rfl).1,
   (C2_thm constPredictor (.obj []) none "r" [("features", .arr [.null])]).2.2.1
      [.null] 0 .null rfl (by decide) rfl rfl,
   (C2_thm constPredictor (.obj []) none "r"
      [("features", .arr (List.replicate 31 (.int 1)))]).2.2.2.1
      (List.replicate 31 (.int 1)) rfl (by decide)⟩

/-- C3, counterexample: a thirty-element vector whose first element is NaN
passes validation (HTTP 200), and the NaN-detecting predictor reports index
1 — the NaN value reached the predictor. -/
theorem C3_counterexample :
    (predict appNan "r" bodyNan).status = 200
    ∧ jGet (predict appNan "r" bodyNan).body "prediction_index" = some (.int 1) :=
  ⟨rfl, rfl⟩

/-- C3 (amended): validation rejects with HTTP 400 any element that is not
coercible to a float (None, booleans, containers, unparseable strings), but
NaN and infinite floats — and the string "nan" — are accepted coercions, and
an all-coercible thirty-element vector is handed to the predictor as the
coerced float list. -/
theorem C3_thm (m : Predictor) (meta : JValue) (le : Option String) (rid : String)
    (xs : List JValue) (i : Nat) (v : JValue) :
    (xs.get? i = some v → coerceFloat v = none →
      (predict ⟨some m, meta, le⟩ rid (.ok (.obj [("features", .arr xs)]))).status = 400)
    ∧ coerceFloat (.float .nan) = some .nan
    ∧ coerceFloat (.float .inf) = some .inf
    ∧ coerceFloat (.str "nan") = some .nan
    ∧ (xs.length = 30 → (∀ w ∈ xs, (coerceFloat w).isSome = true) →
        predict ⟨some m, meta, le⟩ rid (.ok (.obj [("features", .arr xs)]))
          = predictLoaded ⟨some m, meta, le⟩ m rid (xs.filterMap coerceFloat)) := by
  refine ⟨?_, rfl, rfl, rfl, ?_⟩
  · intro hg hc
    have hnot : ¬ (xs.length = 30 ∧ ∀ w ∈ xs, (coerceFloat w).isSome = true) := by
      rintro ⟨-, hall⟩
      have := hall v (List.get?_mem hg)
      rw [hc] at this
      simp at this
    obtain ⟨errs, hv⟩ := validateFeaturesList_error_of_not xs hnot
    have hv2 : validatePredictInput [("features", .arr xs)] = .error errs := by
      show validateFeaturesList xs = _
      exact hv
    rw [predict_of_validation_error m meta le rid _ _ hv2]
  · intro hlen hall
    have hv : validatePredictInput [("features", .arr xs)]
        = .ok (xs.filterMap coerceFloat) := by
      show validateFeaturesList xs = _
      exact validateFeaturesList_eq_ok xs hlen hall
    exact predict_of_validation_ok m meta le rid _ _ hv

/-- C3, witness: a null element is rejected with 400, and the NaN-carrying
vector flows through validation into `predictLoaded`. -/
theorem C3_witness :
    (predict appOk "r" (.ok (.obj [("features", .arr [.null])]))).status = 400
    ∧ predict appNan "r" bodyNan
        = predictLoaded appNan nanDetector "r"
            ((JValue.float .nan :: List.replicate 29 (.int 1)).filterMap coerceFloat) :=
  ⟨(C3_thm constPredictor (.obj []) none "r" [.null] 0 .null).1 rfl rfl,
   (C3_thm nanDetector (.obj []) none "r"
      (JValue.float .nan :: List.replicate 29 (.int 1)) 0 .null).2.2.2.2
      (by decide) (by decide)⟩

/-- C4, counterexample: a predictor raising an exception whose text is
"boom" produces HTTP 500 whose response `message` is exactly "boom" — the
internal exception detail is in the response body, not only in the log. -/
theorem C4_counterexample :
    (predict appBoom "r" body30).status = 500
    ∧ jGet (predict appBoom "r" body30).body "message" = some (.str "boom") :=
  ⟨rfl, rfl⟩

/-- C4 (amended): an unexpected error in the probability step or the
predictor yields HTTP 500 with a JSON body whose `message` is `str(e)` —
the exception text itself, not a generic message. -/
theorem C4_thm (app : App) (m : Predictor) (rid : String) (feats : List PyFloat) (e : String) :
    (probaOf m feats = .error e → predictLoaded app m rid feats = errorResponse 500 e)
    ∧ (∀ proba, probaOf m feats = .ok proba → m.predict feats = .error e →
        predictLoaded app m rid feats = errorResponse 500 e)
    ∧ (errorResponse 500 e).status = 500
    ∧ jGet (errorResponse 500 e).body "message" = some (.str e) := by
  refine ⟨?_, ?_, rfl, rfl⟩
  · intro h
    unfold predictLoaded
    rw [h]
  · intro proba h1 h2
    unfold predictLoaded
    rw [h1, h2]

/-- C4, witness: the raising predictor maps to the 500 response carrying
its message. -/
theorem C4_witness :
    predictLoaded appBoom boomPredictor "r" [] = errorResponse 500 "boom" :=
  (C4_thm appBoom boomPredictor "r" [] "boom").2.1 none rfl rfl

/-- C5: health and predict availability are pure functions of the startup
load outcome — a successful load reports 200 (with the expected feature
count), a failed load reports 500 with the stored reason and the default
feature count; `/health` is 200 exactly on the loaded state; `/predict` in
the failed state returns the same 500 body for every request body (no
validation or inference is reached). -/
theorem C5_thm :
    (∀ (m : Predictor) (meta : JValue),
        (health (create_app (.ok (m, meta)))).status = 200
        ∧ jGet (health (create_app (.ok (m, meta)))).body "n_features"
            = some (.int (n_features_expected meta)))
    ∧ (∀ e : String,
        (health (create_app (.error e))).status = 500
        ∧ jGet (health (create_app (.error e))).body "error" = some (.str e)
        ∧ jGet (health (create_app (.error e))).body "n_features" = some (.int 30))
    ∧ (∀ loadRes : Except String (Predictor × JValue),
        (health (create_app loadRes)).status = 200
          ↔ ∃ m meta, loadRes = .ok (m, meta))
    ∧ (∀ (e : String) (rid : String) (b1 b2 : Except String JValue),
        predict (create_app (.error e)) rid b1 = predict (create_app (.error e)) rid b2)
    ∧ (∀ (e : String) (rid : String) (b : Except String JValue),
        (predict (create_app (.error e)) rid b).status = 500
        ∧ jGet (predict (create_app (.error e)) rid b).body "message"
            = some (.str "Modelo no cargado")
        ∧ jGet (predict (create_app (.error e)) rid b).body "error" = some (.str e)) := by
  refine ⟨fun m meta => ⟨rfl, rfl⟩, fun e => ⟨rfl, rfl, rfl⟩, ?_, fun e rid b1 b2 => rfl,
         fun e rid b => ⟨rfl, rfl, rfl⟩⟩
  intro loadRes
  cases loadRes with
  | ok p =>
    cases p with
    | mk m meta =>
      constructor
      · intro; exact ⟨m, meta, rfl⟩
      · intro; rfl
  | error e =>
    constructor
    · intro h
      have h2 : (500 : Nat) = 200 := h
      exact absurd h2 (by decide)
    · rintro ⟨m, meta, h⟩; exact Except.noConfusion h

/-- C5, witness: the iff of the health derivation applied at a concrete
successful load. -/
theorem C5_witness :
    (health (create_app (.ok (constPredictor, .obj [])))).status = 200 :=
  (C5_thm.2.2.1 (.ok (constPredictor, .obj []))).mpr ⟨constPredictor, .obj [], rfl⟩

/-- C6, counterexample: a present-but-empty inbound `X-Request-Id` header is
echoed verbatim — the response id is the empty string, not the freshly
generated identifier the claim requires for empty headers. -/
theorem C6_counterexample :
    headerGet (runRequest appOk ms0 reqHdrEmpty "fresh-uuid").1.headers "X-Request-Id"
      = some ""
    ∧ ("" : String) ≠ "fresh-uuid" :=
  ⟨rfl, by decide⟩

/-- C6 (amended): every response carries `X-Request-Id`; a present inbound
header — even an empty one — is echoed exactly, and the freshly drawn
identifier is used exactly when the header is absent. -/
theorem C6_thm (app : App) (ms : Metrics) (req : HttpRequest) (fresh : String) :
    (∀ v, headerGet req.headers "X-Request-Id" = some v →
      headerGet (runRequest app ms req fresh).1.headers "X-Request-Id" = some v)
    ∧ (headerGet req.headers "X-Request-Id" = none →
      headerGet (runRequest app ms req fresh).1.headers "X-Request-Id" = some fresh) := by
  constructor
  · intro v hv
    rw [runRequest_xrid]
    unfold requestId
    rw [hv]
  · intro hn
    rw [runRequest_xrid]
    unfold requestId
    rw [hn]

/-- C6, witness: a supplied header is echoed; an absent one gets the fresh
id. -/
theorem C6_witness :
    headerGet (runRequest appOk ms0 reqHdrAbc "f").1.headers "X-Request-Id" = some "abc"
    ∧ headerGet (runRequest appOk ms0 reqPredNoHdr "f").1.headers "X-Request-Id" = some "f" :=
  ⟨(C6_thm appOk ms0 reqHdrAbc "f").1 "abc" rfl,
   (C6_thm appOk ms0 reqPredNoHdr "f").2 rfl⟩

/-- C7, counterexample: two `/predict` calls with identical bodies and no
inbound header draw distinct fresh ids, and the two responses differ — the
`request_id` field of the body differs. -/
theorem C7_counterexample :
    jGet (runRequest appOk ms0 reqPredNoHdr "a").1.body "request_id" = some (.str "a")
    ∧ jGet (runRequest appOk ms0 reqPredNoHdr "b").1.body "request_id" = some (.str "b")
    ∧ (runRequest appOk ms0 reqPredNoHdr "a").1 ≠ (runRequest appOk ms0 reqPredNoHdr "b").1 := by
  refine ⟨rfl, rfl, ?_⟩
  intro h
  have ha : jGet (runRequest appOk ms0 reqPredNoHdr "a").1.body "request_id"
      = some (.str "a") := rfl
  have hb : jGet (runRequest appOk ms0 reqPredNoHdr "b").1.body "request_id"
      = some (.str "b") := rfl
  rw [h, hb] at ha
  injection ha with ha2
  injection ha2 with ha3
  exact absurd ha3 (by decide)

/-- C7 (amended): a `/predict` response is independent of the mutable
metric state, so two calls with identical bodies and identical correlation
ids yield identical responses — also when the second call runs on the state
the first one left behind. -/
theorem C7_thm (app : App) (ms1 ms2 : Metrics) (req : HttpRequest) (fresh : String)
    (h : req.endpoint = "predict") :
    (runRequest app ms1 req fresh).1 = (runRequest app ms2 req fresh).1
    ∧ (runRequest app (runRequest app ms1 req fresh).2 req fresh).1
        = (runRequest app ms1 req fresh).1 := by
  have hb : (req.endpoint == "predict") = true := by rw [h]; rfl
  constructor
  · simp only [runRequest, dispatch, hb, if_true]
  · simp only [runRequest, dispatch, hb, if_true]

/-- C7, witness: the same predict call from two different metric states
yields the same response. -/
theorem C7_witness :
    (runRequest appOk ⟨[("health", "GET", "200")], [("health", "GET")]⟩ reqPredNoHdr "a").1
      = (runRequest appOk ms0 reqPredNoHdr "a").1 :=
  ((C7_thm appOk ⟨[("health", "GET", "200")], [("health", "GET")]⟩ ms0 reqPredNoHdr "a") rfl).1

/-- C8: every request — whatever the endpoint, method or outcome — appends
exactly one `REQ_COUNT` increment keyed by endpoint, method and the final
response's status code, and exactly one `REQ_LATENCY` observation keyed by
endpoint and method. -/
theorem C8_thm (app : App) (ms : Metrics) (req : HttpRequest) (fresh : String) :
    (runRequest app ms req fresh).2.counts
      = ms.counts
          ++ [(endpointLabel req, req.method, toString (runRequest app ms req fresh).1.status)]
    ∧ (runRequest app ms req fresh).2.latencies
      = ms.latencies ++ [(endpointLabel req, req.method)] :=
  ⟨rfl, rfl⟩

/-- C9, counterexample: with `class_names` present but empty the response is
a 200 whose `prediction` is the raw integer index 0, although the claim
requires `class_names[0]` — which does not exist. -/
theorem C9_counterexample :
    (predict appEmptyCN "r" body30).status = 200
    ∧ jGet appEmptyCN.meta "class_names" = some (.arr [])
    ∧ jGet (predict appEmptyCN "r" body30).body "prediction" = some (.int 0)
    ∧ pyListIndex [] 0 = .error "IndexError: list index out of range" :=
  ⟨rfl, rfl, rfl, rfl⟩

/-- C9 (amended): `prediction` is `class_names[prediction_index]` whenever
`class_names` is present and truthy (non-empty), and the raw integer index
when it is absent or falsy (null or empty). -/
theorem C9_thm (mf : List (String × JValue)) (le : Option String) (m : Predictor)
    (rid : String) (feats : List PyFloat) (idx : Int) (proba : Option (List PyFloat))
    (hp : probaOf m feats = .ok proba) (hi : m.predict feats = .ok idx) :
    (∀ cn nm, objGet mf "class_names" = some cn → truthy cn = true →
        pySubscript cn idx = .ok nm →
        jGet (predictLoaded ⟨some m, .obj mf, le⟩ m rid feats).body "prediction" = some nm
        ∧ (predictLoaded ⟨some m, .obj mf, le⟩ m rid feats).status = 200)
    ∧ (objGet mf "class_names" = none →
        jGet (predictLoaded ⟨some m, .obj mf, le⟩ m rid feats).body "prediction"
          = some (.int idx))
    ∧ (∀ cn, objGet mf "class_names" = some cn → truthy cn = false →
        jGet (predictLoaded ⟨some m, .obj mf, le⟩ m rid feats).body "prediction"
          = some (.int idx)) := by
  have hD : pyDictGet (JValue.obj mf) "class_names" .null
      = .ok ((objGet mf "class_names").getD .null) := rfl
  refine ⟨?_, ?_, ?_⟩
  · intro cn nm hcn ht hs
    unfold predictLoaded
    rw [hp, hi, hD, hcn]
    dsimp only [Option.getD]
    rw [if_pos ht, hs]
    exact ⟨rfl, rfl⟩
  · intro hcn
    unfold predictLoaded
    rw [hp, hi, hD, hcn]
    dsimp only [Option.getD]
    rw [if_neg (by simp [truthy])]
    rfl
  · intro cn hcn ht
    unfold predictLoaded
    rw [hp, hi, hD, hcn]
    dsimp only [Option.getD]
    rw [if_neg (by simp [ht])]
    rfl

/-- C9, witness: with two class names and predicted index 1 the prediction
is the second name. -/
theorem C9_witness :
    jGet (predictLoaded
        ⟨some onePredictor, .obj [("class_names", .arr [.str "malignant", .str "benign"])], none⟩
        onePredictor "r" []).body "prediction" = some (.str "benign") :=
  ((C9_thm [("class_names", .arr [.str "malignant", .str "benign"])] none onePredictor
      "r" [] 1 none rfl rfl).1 (.arr [.str "malignant", .str "benign"]) (.str "benign")
      rfl rfl rfl).1

/-- C10: `n_features_expected` is total — it returns `int(meta["n_features"])`
whenever the lookup and the conversion succeed and 30 in every other case
(missing key, unconvertible value, non-dict metadata) — and `/health` always
reports exactly this integer as `n_features`. -/
theorem C10_thm :
    (∀ fields v n, objGet fields "n_features" = some v → pyInt v = some n →
        n_features_expected (.obj fields) = n)
    ∧ (∀ fields v, objGet fields "n_features" = some v → pyInt v = none →
        n_features_expected (.obj fields) = 30)
    ∧ (∀ fields, objGet fields "n_features" = none → n_features_expected (.obj fields) = 30)
    ∧ (∀ meta : JValue, (∀ fields, meta ≠ .obj fields) → n_features_expected meta = 30)
    ∧ (∀ app : App, jGet (health app).body "n_features"
        = some (.int (n_features_expected app.meta))) := by
  refine ⟨?_, ?_, ?_, ?_, fun app => rfl⟩
  · intro fields v n hv hn
    unfold n_features_expected pyDictGet
    dsimp only
    rw [hv]
    dsimp only [Option.getD]
    rw [hn]
  · intro fields v hv hn
    unfold n_features_expected pyDictGet
    dsimp only
    rw [hv]
    dsimp only [Option.getD]
    rw [hn]
  · intro fields hv
    unfold n_features_expected pyDictGet
    dsimp only
    rw [hv]
    rfl
  · intro meta hne
    cases meta with
    | obj fs => exact absurd rfl (hne fs)
    | null => rfl
    | bool b => rfl
    | int n => rfl
    | float f => rfl
    | str s => rfl
    | arr xs => rfl

/-- C10, witness: a numeric string converts, a non-dict metadata and a null
value default to 30. -/
theorem C10_witness :
    n_features_expected (.obj [("n_features", .str "25")]) = 25
    ∧ n_features_expected (.arr []) = 30
    ∧ n_features_expected (.obj [("n_features", .null)]) = 30 :=
  ⟨C10_thm.1 [("n_features", .str "25")] (.str "25") 25 rfl rfl,
   C10_thm.2.2.2.1 (.arr []) (fun _ h => JValue.noConfusion h),
   C10_thm.2.1 [("n_features", .null)] .null rfl rfl⟩
